import Mathlib

/-!
Verification of the candidate-site scoring logic of the charging-infrastructure
dashboard (src/pages/1_⚡_Ladeinfrastruktur.py), shallowly embedded in Lean.

Coordinates are modelled as exact rationals; the geometric region produced by
`nodes.buffer(0.005)` followed by `unary_union` is modelled as the union of
closed disks of the given radius around the node locations, and geometric
predicates delegated to shapely (`intersects`, `within`) are modelled by their
documented point semantics: `intersects` for a point and a region is
boundary-inclusive membership, `within` for a point and a polygon is strict
interior membership.
-/

namespace GridModel

/-- A geographic point, as built by `Point(x['Längengrad'], x['Breitengrad'])`:
`x` is the longitude and `y` the latitude, in degrees, as exact rationals. -/
structure Point where
  x : ℚ
  y : ℚ
deriving DecidableEq, Repr

/-- Squared Euclidean distance between two points, in squared degrees. -/
def distSq (p q : Point) : ℚ :=
  (p.x - q.x) ^ 2 + (p.y - q.y) ^ 2

/-- The region `nodes.buffer(r).unary_union`: the union of the closed disks of
radius `r` centered at the node locations. Kept in unevaluated form as the
list of centers together with the radius. -/
structure Region where
  centers : List Point
  radius : ℚ
deriving DecidableEq, Repr

/-- Build the buffer region around a list of node locations, as in
`buffer = nodes.buffer(0.005)` combined by `unary_union`. -/
def mkBuffer (nodes : List Point) (r : ℚ) : Region :=
  ⟨nodes, r⟩

/-- Point membership in the buffer region. A point intersects the union of
closed disks exactly when its distance to some center is at most the radius;
boundary points (distance exactly the radius) are included, matching the
boundary-inclusive semantics of shapely `intersects`. -/
def Region.containsPt (b : Region) (p : Point) : Bool :=
  b.centers.any (fun c => decide (distSq p c ≤ b.radius ^ 2))

/-- The fixed buffer radius used at `nodes.buffer(0.005)`: 0.005 degrees. -/
def RADIUS : ℚ := 5 / 1000

/-- A charging station row of the loaded register, with the columns the page
reads: operator, rated power in kW (may be missing), street, and the point
geometry built from its coordinates. -/
structure ChargingStation where
  betreiber : String
  nennleistung : Option ℚ
  strasse : String
  location : Point
deriving DecidableEq, Repr

/-- A traffic-network node: only its location is used by the scoring. -/
structure TrafficNode where
  location : Point
deriving DecidableEq, Repr

/-- A district polygon. The point-in-polygon test is delegated to shapely in
the source; the polygon is modelled by its decidable strict-interior
membership predicate, since shapely `within` for a point holds exactly when
the point lies in the polygon interior (boundary points are not within). -/
structure Polygon where
  interior : Point → Bool

/-- Shapely `within` for a point geometry: strict interior membership. -/
def Point.withinPoly (p : Point) (poly : Polygon) : Bool :=
  poly.interior p

/-- The district filter applied at `if selected_bezirk != "Alle": ... =
items[items.within(bezirk_polygon)]`: `none` models the sentinel "Alle"
selection, which leaves the collection untouched; otherwise each item is kept
exactly when its geometry is within the selected polygon. The geometry test
`w` is a parameter because the source applies `.within` to station, node and
edge geometry columns alike. -/
def filterByDistrict {α : Type} (w : α → Polygon → Bool)
    (sel : Option Polygon) (items : List α) : List α :=
  match sel with
  | none => items
  | some poly => items.filter (fun x => w x poly)

/-- The power filter applied at
`gdf_ladesaeulen[gdf_ladesaeulen['Nennleistung Ladeeinrichtung [kW]'] > t]`:
pandas comparison of a missing (NaN) rated power against `t` yields false, so
stations with missing power are dropped; present powers are kept exactly when
strictly greater than `t`. The source instantiates `t` with 50. -/
def filterByMinPower (stations : List ChargingStation) (t : ℚ) :
    List ChargingStation :=
  stations.filter (fun s =>
    match s.nennleistung with
    | none => false
    | some p => decide (t < p))

/-- The candidate selection
`nearby_ladesaeulen = gdf_ladesaeulen[gdf_ladesaeulen.intersects(buffer.unary_union)]`:
keep the stations whose location intersects the buffer region. -/
def nearby_ladesaeulen (stations : List ChargingStation) (buffer : Region) :
    List ChargingStation :=
  stations.filter (fun s => buffer.containsPt s.location)

/-- The outputs of one recomputation pass of the page: the filtered station
collection, the candidate set, the marker lists actually drawn on the map
(gated by the multiselect options), and the two summary counts reported under
"Analyseergebnisse". -/
structure PageOutput where
  gdf_ladesaeulen : List ChargingStation
  nearby : List ChargingStation
  blueMarkers : List ChargingStation
  redMarkers : List ChargingStation
  anzahlBestehende : Nat
  anzahlBerechnete : Nat
deriving DecidableEq, Repr

/-- One full recomputation pass of the page, in source order: district filter
on stations and nodes, optional power filter (threshold 50 kW), buffer of
radius `RADIUS` around the remaining nodes, candidate selection by
intersection, marker lists gated by the multiselect `options`, and the two
summary counts. -/
def pageCompute (stations : List ChargingStation) (nodes : List TrafficNode)
    (selected_bezirk : Option Polygon) (filter_by_power : Bool)
    (options : List String) : PageOutput :=
  let gdf1 := filterByDistrict (fun s poly => s.location.withinPoly poly)
    selected_bezirk stations
  let nodes1 := filterByDistrict (fun n poly => n.location.withinPoly poly)
    selected_bezirk nodes
  let gdf2 := if filter_by_power then filterByMinPower gdf1 50 else gdf1
  let buffer := mkBuffer (nodes1.map (fun n => n.location)) RADIUS
  let nearby := nearby_ladesaeulen gdf2 buffer
  { gdf_ladesaeulen := gdf2
    nearby := nearby
    blueMarkers := if options.contains "Bestehende Ladestationen" then gdf2 else []
    redMarkers :=
      if options.contains "Neue berechnete Ladestationen (Verkehrsknotenpunkte)"
      then nearby else []
    anzahlBestehende := gdf2.length
    anzahlBerechnete := nearby.length }

/-- The coordinate correction `.str.replace(',', '.')`: every comma of the
field is replaced by a dot. -/
def replaceCommaDot (s : String) : String :=
  String.mk (s.data.map (fun c => if c = ',' then '.' else c))

/-- Numeric value of a digit string read left to right. -/
def digitsToNat (cs : List Char) : Nat :=
  cs.foldl (fun acc c => acc * 10 + (c.toNat - 48)) 0

/-- Split a character list at the first dot, returning the part before it and,
when a dot occurs, the part after it. -/
def splitDot : List Char → List Char × Option (List Char)
  | [] => ([], none)
  | c :: rest =>
    if c = '.' then ([], some rest)
    else
      let r := splitDot rest
      (c :: r.1, r.2)

/-- Parse an unsigned decimal literal, the shape accepted by Python
`float` on the register data after comma correction: digits, optionally with
one dot and a digit part on at least one side of it. -/
def parseUnsigned (cs : List Char) : Option ℚ :=
  match splitDot cs with
  | (ip, none) =>
    if ip ≠ [] ∧ ip.all Char.isDigit then some (digitsToNat ip) else none
  | (ip, some fp) =>
    if (ip ≠ [] ∨ fp ≠ []) ∧ ip.all Char.isDigit ∧ fp.all Char.isDigit then
      some ((digitsToNat ip : ℚ) + (digitsToNat fp : ℚ) / 10 ^ fp.length)
    else none

/-- Parse a signed decimal literal, modelling `astype(float)` on one field
value: an optional sign followed by an unsigned decimal literal. -/
def parseFloat (s : String) : Option ℚ :=
  match s.data with
  | '-' :: rest => (parseUnsigned rest).map (fun q => -q)
  | '+' :: rest => parseUnsigned rest
  | cs => parseUnsigned cs

/-- One raw row of the semicolon-separated register file, restricted to the
two coordinate columns that `load_data` transforms; a `none` field is a value
that `read_csv` already represents as missing (NaN). -/
structure RawRow where
  breitengrad : Option String
  laengengrad : Option String
deriving DecidableEq, Repr

/-- Conversion of one coordinate field by
`.str.replace(',', '.').astype(float)`: a missing field stays missing (NaN
maps to NaN), a present field must parse as a float after comma correction,
and a present field that does not parse makes `astype` raise, which is
modelled as the error outcome. -/
def convertCoord (v : Option String) : Except Unit (Option ℚ) :=
  match v with
  | none => Except.ok none
  | some s =>
    match parseFloat (replaceCommaDot s) with
    | some q => Except.ok (some q)
    | none => Except.error ()

/-- Conversion of both coordinate fields of one row; the first field whose
`astype` raises aborts the computation. -/
def convertRow (r : RawRow) : Except Unit (Option ℚ × Option ℚ) := do
  let b ← convertCoord r.breitengrad
  let l ← convertCoord r.laengengrad
  pure (b, l)

/-- The `dropna(subset=['Breitengrad', 'Längengrad'])` step on one converted
row: the row survives exactly when both coordinates are present. -/
def dropnaPair (bl : Option ℚ × Option ℚ) : Option (ℚ × ℚ) :=
  match bl with
  | (some b, some l) => some (b, l)
  | _ => none

/-- The body of `load_data` after `read_csv`: both coordinate columns are
converted with `.str.replace(',', '.').astype(float)` (an unparseable present
value raises, aborting the whole load), then
`dropna(subset=['Breitengrad', 'Längengrad'])` keeps exactly the rows whose
two coordinates are present. The result lists each kept row's
(Breitengrad, Längengrad) pair. -/
def load_data (rows : List RawRow) : Except Unit (List (ℚ × ℚ)) := do
  let converted ← rows.mapM convertRow
  pure (converted.filterMap dropnaPair)

/-- Whether `astype(float)` succeeds on one coordinate field: a missing field
stays NaN without raising, and a present field must parse after comma
correction. -/
def fieldParses (v : Option String) : Bool :=
  match v with
  | none => true
  | some s => (parseFloat (replaceCommaDot s)).isSome

/-- The converted value of one coordinate field when `astype` does not raise:
missing stays missing, a present field becomes its parsed number. -/
def coordVal (v : Option String) : Option ℚ :=
  v.bind (fun s => parseFloat (replaceCommaDot s))

/-- The contribution of one raw row to a successful load: its parsed
coordinate pair when both coordinates are present, nothing when `dropna`
removes the row. -/
def loadedRow (r : RawRow) : Option (ℚ × ℚ) :=
  dropnaPair (coordVal r.breitengrad, coordVal r.laengengrad)

/-- Sample row whose latitude field is present but not parseable as a
number. -/
def badRow : RawRow :=
  { breitengrad := some "abc", laengengrad := some "13,4" }

/-- Sample rows on which every present coordinate field parses; the second
row has a missing latitude. -/
def goodRows : List RawRow :=
  [{ breitengrad := some "52,5", laengengrad := some "13,4" },
   { breitengrad := none, laengengrad := some "13,4" }]

/-- Sample station used to evaluate the model at concrete inputs: rated power
60 kW, located at longitude 13.4 and latitude 52.5. -/
def stationA : ChargingStation :=
  { betreiber := "Operator A"
    nennleistung := some 60
    strasse := "Hauptstrasse"
    location := { x := 134 / 10, y := 525 / 10 } }

/-- Sample station with missing rated power, at the same location. -/
def stationNone : ChargingStation :=
  { betreiber := "Operator B"
    nennleistung := none
    strasse := "Nebenstrasse"
    location := { x := 134 / 10, y := 525 / 10 } }

/-- Sample traffic node at the same location as the sample stations. -/
def nodeA : TrafficNode :=
  { location := { x := 134 / 10, y := 525 / 10 } }

/-- Claim C1: for every station sequence and every buffer region, the
candidate selection returns exactly the stations whose location intersects
the region — distance at most the radius to some center, so boundary
touching (distance exactly the radius) counts — and the returned stations
keep the relative order of the input sequence. -/
theorem nearby_exact_and_ordered (S : List ChargingStation) (b : Region) :
    (∀ s, s ∈ nearby_ladesaeulen S b ↔
      (s ∈ S ∧ ∃ c ∈ b.centers, distSq s.location c ≤ b.radius ^ 2))
    ∧ (nearby_ladesaeulen S b).Sublist S := by
  constructor
  · intro s
    simp [nearby_ladesaeulen, Region.containsPt, List.mem_filter,
      List.any_eq_true]
  · exact List.filter_sublist S

/-- Claim C2: the candidate set is always a subset of the station sequence it
was selected from, and in every run of the page the reported candidate count
is at most the reported visible-station count. -/
theorem candidateSet_subset :
    (∀ (S : List ChargingStation) (b : Region) (s : ChargingStation),
        s ∈ nearby_ladesaeulen S b → s ∈ S)
    ∧ ∀ (stations : List ChargingStation) (nodes : List TrafficNode)
        (sel : Option Polygon) (pf : Bool) (opts : List String),
        (pageCompute stations nodes sel pf opts).anzahlBerechnete ≤
          (pageCompute stations nodes sel pf opts).anzahlBestehende := by
  constructor
  · intro S b s hs
    exact (List.mem_filter.mp hs).1
  · intro stations nodes sel pf opts
    exact List.length_filter_le _ _

/-- Witness for C2 at a concrete input: the sample station is selected as a
candidate and is indeed an element of the input sequence. -/
theorem candidateSet_subset_witness :
    stationA ∈ nearby_ladesaeulen [stationA] (mkBuffer [nodeA.location] RADIUS)
    ∧ stationA ∈ [stationA] := by
  have hmem : stationA ∈
      nearby_ladesaeulen [stationA] (mkBuffer [nodeA.location] RADIUS) := by
    simp [nearby_ladesaeulen, Region.containsPt, mkBuffer, RADIUS, distSq,
      stationA, nodeA, List.mem_filter]
    positivity
  exact ⟨hmem, candidateSet_subset.1 [stationA] (mkBuffer [nodeA.location] RADIUS)
    stationA hmem⟩

/-- Claim C4: the minimum-power filter keeps exactly the stations whose rated
power is present and strictly greater than the threshold; a station with
missing rated power is never kept, for any threshold, and the comparison is a
total function, never an error. -/
theorem filterByMinPower_exact (S : List ChargingStation) (t : ℚ) :
    (∀ s, s ∈ filterByMinPower S t ↔
      (s ∈ S ∧ ∃ p, s.nennleistung = some p ∧ t < p))
    ∧ ∀ s, s ∈ filterByMinPower S t → s.nennleistung ≠ none := by
  constructor
  · intro s
    cases hp : s.nennleistung with
    | none => simp [filterByMinPower, List.mem_filter, hp]
    | some p => simp [filterByMinPower, List.mem_filter, hp]
  · intro s hs hnone
    simp [filterByMinPower, List.mem_filter, hnone] at hs

/-- Witness for C4 at a concrete input: the 60 kW station passes the 50 kW
filter, the station with missing power does not. -/
theorem filterByMinPower_exact_witness :
    stationA ∈ filterByMinPower [stationA, stationNone] 50
    ∧ stationNone ∉ filterByMinPower [stationA, stationNone] 50 :=
  ⟨((filterByMinPower_exact [stationA, stationNone] 50).1 stationA).mpr
      ⟨by simp, 60, rfl, by norm_num⟩,
   fun hmem =>
    (filterByMinPower_exact [stationA, stationNone] 50).2 stationNone hmem rfl⟩

/-- Claim C8: the candidate selection is a pure, deterministic function of
its inputs — equal inputs give equal outputs — and reapplying it to its own
output changes nothing (no hidden mutation). -/
theorem nearby_deterministic_idempotent (S : List ChargingStation)
    (b : Region) :
    nearby_ladesaeulen S b = nearby_ladesaeulen S b
    ∧ nearby_ladesaeulen (nearby_ladesaeulen S b) b = nearby_ladesaeulen S b := by
  refine ⟨rfl, ?_⟩
  simp [nearby_ladesaeulen, List.filter_filter, Bool.and_self]

/-- Claim C10: the multiselect display choice influences only which marker
layers are drawn; the filtered station collection, the candidate set and both
summary counts are identical across any two runs that differ only in the
multiselect choice. -/
theorem options_do_not_affect_results (stations : List ChargingStation)
    (nodes : List TrafficNode) (sel : Option Polygon) (pf : Bool)
    (opts1 opts2 : List String) :
    (pageCompute stations nodes sel pf opts1).gdf_ladesaeulen =
      (pageCompute stations nodes sel pf opts2).gdf_ladesaeulen
    ∧ (pageCompute stations nodes sel pf opts1).nearby =
      (pageCompute stations nodes sel pf opts2).nearby
    ∧ (pageCompute stations nodes sel pf opts1).anzahlBestehende =
      (pageCompute stations nodes sel pf opts2).anzahlBestehende
    ∧ (pageCompute stations nodes sel pf opts1).anzahlBerechnete =
      (pageCompute stations nodes sel pf opts2).anzahlBerechnete :=
  ⟨rfl, rfl, rfl, rfl⟩

/-- Claim C5: the district filter with the "Alle" sentinel returns its input
unchanged for every geometry test, and with a selected polygon it keeps
exactly the items whose location is within the polygon — strict interior
membership, so a boundary point is excluded — preserving the input order. -/
theorem filterByDistrict_exact :
    (∀ (α : Type) (w : α → Polygon → Bool) (items : List α),
        filterByDistrict w none items = items)
    ∧ (∀ (P : Polygon) (items : List ChargingStation) (s : ChargingStation),
        s ∈ filterByDistrict (fun s poly => s.location.withinPoly poly)
            (some P) items
          ↔ (s ∈ items ∧ P.interior s.location = true))
    ∧ (∀ (P : Polygon) (items : List TrafficNode) (n : TrafficNode),
        n ∈ filterByDistrict (fun n poly => n.location.withinPoly poly)
            (some P) items
          ↔ (n ∈ items ∧ P.interior n.location = true))
    ∧ ∀ (α : Type) (w : α → Polygon → Bool) (P : Polygon) (items : List α),
        (filterByDistrict w (some P) items).Sublist items := by
  refine ⟨fun α w items => rfl, ?_, ?_, ?_⟩
  · intro P items s
    simp [filterByDistrict, List.mem_filter, Point.withinPoly]
  · intro P items n
    simp [filterByDistrict, List.mem_filter, Point.withinPoly]
  · intro α w P items
    exact List.filter_sublist _

/-- Claim C6: the buffer of an empty node sequence contains no point for any
radius, selecting against it yields the empty sequence, and the page run on
an empty station dataset yields empty collections and 0/0 summary counts at
every filter state, without failure. -/
theorem empty_inputs_give_empty_results :
    (∀ (r : ℚ) (p : Point), (mkBuffer [] r).containsPt p = false)
    ∧ (∀ (r : ℚ) (S : List ChargingStation),
        nearby_ladesaeulen S (mkBuffer [] r) = [])
    ∧ ∀ (nodes : List TrafficNode) (sel : Option Polygon) (pf : Bool)
        (opts : List String),
        (pageCompute [] nodes sel pf opts).gdf_ladesaeulen = []
        ∧ (pageCompute [] nodes sel pf opts).nearby = []
        ∧ (pageCompute [] nodes sel pf opts).anzahlBestehende = 0
        ∧ (pageCompute [] nodes sel pf opts).anzahlBerechnete = 0 := by
  refine ⟨fun r p => rfl, ?_, ?_⟩
  · intro r S
    simp [nearby_ladesaeulen, Region.containsPt, mkBuffer]
  · intro nodes sel pf opts
    cases sel <;> cases pf <;> exact ⟨rfl, rfl, rfl, rfl⟩

/-- Claim C7: for a positive radius, the buffer region around a node list
contains exactly the points whose Euclidean distance to some node is at most
the radius — so it excludes every point farther than the radius from all
nodes — and the radius constant used by the page is 0.005 degrees. -/
theorem buffer_contains_iff_dist_le (centers : List Point) (r : ℚ)
    (hr : 0 < r) (p : Point) :
    ((mkBuffer centers r).containsPt p = true ↔
      ∃ c ∈ centers, Real.sqrt ((distSq p c : ℚ) : ℝ) ≤ ((r : ℚ) : ℝ))
    ∧ RADIUS = 1 / 200 := by
  constructor
  · simp only [mkBuffer, Region.containsPt, List.any_eq_true,
      decide_eq_true_eq]
    constructor
    · rintro ⟨c, hc, hle⟩
      refine ⟨c, hc, ?_⟩
      rw [Real.sqrt_le_iff]
      refine ⟨by exact_mod_cast hr.le, ?_⟩
      exact_mod_cast hle
    · rintro ⟨c, hc, hle⟩
      refine ⟨c, hc, ?_⟩
      have h2 := (Real.sqrt_le_iff.mp hle).2
      exact_mod_cast h2
  · norm_num [RADIUS]

/-- Witness for C7 at a concrete input: radius 1 is positive, and at that
radius a point coincident with the single node lies in the buffer exactly
when its distance 0 is at most 1; the radius constant equals 1/200. -/
theorem buffer_contains_iff_dist_le_witness :
    (0 : ℚ) < 1
    ∧ (((mkBuffer [Point.mk 0 0] 1).containsPt (Point.mk 0 0) = true ↔
        ∃ c ∈ [Point.mk 0 0],
          Real.sqrt ((distSq (Point.mk 0 0) c : ℚ) : ℝ) ≤ ((1 : ℚ) : ℝ))
       ∧ RADIUS = 1 / 200) :=
  ⟨by norm_num,
   buffer_contains_iff_dist_le [Point.mk 0 0] 1 (by norm_num) (Point.mk 0 0)⟩

/-- Claim C9: when the minimum-power filter is enabled, every station of the
candidate set has a present rated power strictly greater than 50 kW — a
station failing the power filter never reaches the candidate set even if its
location intersects the buffer. -/
theorem powerFiltered_candidates_exceed_threshold
    (stations : List ChargingStation) (nodes : List TrafficNode)
    (sel : Option Polygon) (opts : List String) (s : ChargingStation)
    (hs : s ∈ (pageCompute stations nodes sel true opts).nearby) :
    ∃ p, s.nennleistung = some p ∧ 50 < p := by
  have h1 : s ∈ filterByMinPower
      (filterByDistrict (fun s poly => s.location.withinPoly poly)
        sel stations) 50 :=
    (List.mem_filter.mp hs).1
  have h2 := (List.mem_filter.mp h1).2
  cases hp : s.nennleistung with
  | none => simp [hp] at h2
  | some p =>
    refine ⟨p, rfl, ?_⟩
    simp [hp] at h2
    exact h2

/-- Witness for C9 at a concrete input: with the power filter enabled, the
60 kW sample station is in the candidate set and its power exceeds 50 kW. -/
theorem powerFiltered_candidates_exceed_threshold_witness :
    stationA ∈ (pageCompute [stationA] [nodeA] none true []).nearby
    ∧ ∃ p, stationA.nennleistung = some p ∧ 50 < p := by
  have hmem : stationA ∈ (pageCompute [stationA] [nodeA] none true []).nearby := by
    show stationA ∈ nearby_ladesaeulen
      (filterByMinPower [stationA] 50)
      (mkBuffer [nodeA.location] RADIUS)
    simp [nearby_ladesaeulen, filterByMinPower, Region.containsPt, mkBuffer,
      RADIUS, distSq, stationA, nodeA, List.mem_filter]
    norm_num
  exact ⟨hmem,
    powerFiltered_candidates_exceed_threshold [stationA] [nodeA] none []
      stationA hmem⟩

/-- Conversion of a coordinate field succeeds with its converted value
whenever the field is missing or parses. -/
theorem convertCoord_ok {v : Option String} (h : fieldParses v = true) :
    convertCoord v = Except.ok (coordVal v) := by
  cases v with
  | none => rfl
  | some s =>
    simp only [fieldParses] at h
    obtain ⟨q, hq⟩ := Option.isSome_iff_exists.mp h
    simp [convertCoord, coordVal, hq]

/-- Conversion of a whole row succeeds when both of its coordinate fields
convert without raising. -/
theorem convertRow_ok {r : RawRow} (hb : fieldParses r.breitengrad = true)
    (hl : fieldParses r.laengengrad = true) :
    convertRow r = Except.ok (coordVal r.breitengrad, coordVal r.laengengrad) := by
  unfold convertRow
  rw [convertCoord_ok hb, convertCoord_ok hl]
  rfl

/-- Monadic map over `Except` succeeds elementwise when every element
succeeds. -/
theorem mapM_ok {α β : Type} (f : α → Except Unit β) (g : α → β) :
    ∀ l : List α, (∀ a ∈ l, f a = Except.ok (g a)) →
      l.mapM f = Except.ok (l.map g) := by
  intro l
  induction l with
  | nil => intro _; rfl
  | cons a t ih =>
    intro h
    rw [List.mapM_cons, h a (List.mem_cons_self a t),
      ih (fun x hx => h x (List.mem_cons_of_mem a hx))]
    rfl

/-- Counterexample to claim C3 as stated: a record whose latitude field is
present but unparseable does not get dropped — it makes the whole load fail,
because `astype(float)` raises on it. -/
theorem load_data_unparseable_counterexample :
    load_data [badRow] = Except.error ()
    ∧ ∀ out, load_data [badRow] ≠ Except.ok out := by
  have h0 : load_data [badRow] = Except.error () := rfl
  refine ⟨h0, fun out h => ?_⟩
  rw [h0] at h
  exact Except.noConfusion h

/-- Claim C3 as amended: when every present coordinate field of the input
parses as a number, the load succeeds without failing, each record with a
missing latitude or longitude is dropped, and exactly the records with both
coordinates present are kept, with their parsed values, in order; a record
with a present but unparseable coordinate field instead makes the whole load
fail. -/
theorem load_data_ok_of_parseable (rows : List RawRow)
    (h : ∀ r ∈ rows,
      fieldParses r.breitengrad = true ∧ fieldParses r.laengengrad = true) :
    load_data rows = Except.ok (rows.filterMap loadedRow) := by
  have hmap := mapM_ok convertRow
    (fun r => (coordVal r.breitengrad, coordVal r.laengengrad)) rows
    (fun r hr => convertRow_ok (h r hr).1 (h r hr).2)
  have hfm : (rows.map
        (fun r => (coordVal r.breitengrad, coordVal r.laengengrad))).filterMap
        dropnaPair
      = rows.filterMap loadedRow := by
    rw [List.filterMap_map]
    rfl
  unfold load_data
  rw [hmap, ← hfm]
  rfl

/-- Witness for the amended C3 at a concrete input: the sample rows satisfy
the parseability hypothesis, and the load succeeds with the row with missing
latitude dropped. -/
theorem load_data_ok_of_parseable_witness :
    (∀ r ∈ goodRows,
      fieldParses r.breitengrad = true ∧ fieldParses r.laengengrad = true)
    ∧ load_data goodRows = Except.ok (goodRows.filterMap loadedRow) :=
  ⟨by decide, load_data_ok_of_parseable goodRows (by decide)⟩

end GridModel
